import Mathlib

/-!
Verification of the chat server core (`src/server/index.ts`): a shallow
embedding of the persistent store (Prisma `User` / `Message` tables), the
per-connection transport state (`socket.rooms`), the in-memory typing-timer
map, and the socket event handlers (`login`, `userMessage`, `muteUser`,
`unmuteUser`, `kickUser`, `typing`).  Store rows are lists of records;
handler effects are returned as an explicit list of emissions tagged with
their target (the connection itself, a room, or a broadcast).  A Prisma
`update` on a missing unique key throws; every handler wraps its body in
`try/catch`, so a throw aborts the remaining steps while keeping the
effects already performed — the embedding models this with explicit
early-return branches.
-/

namespace Chat

/-- A row of the `User` table (`prisma/migrations/.../migration.sql`). -/
structure UserRow where
  user_id : String
  status : String
  now_room : String
  role : Nat
  is_muted : Bool
  created_at : Nat
  deriving DecidableEq, Repr

/-- A row of the `Message` table. -/
structure MessageRow where
  id : Nat
  user_id : String
  room : String
  text : String
  created_at : Nat
  deriving DecidableEq, Repr

/-- The persistent store: the two tables plus the id sequence for messages. -/
structure Store where
  users : List UserRow
  messages : List MessageRow
  nextMsgId : Nat
  deriving DecidableEq, Repr

/-- Transport-level state of one connection: its id and `socket.rooms`
(in JS a `Set`, which preserves insertion order; the socket's own id is its
first element). -/
structure Conn where
  sid : String
  rooms : List String
  deriving DecidableEq, Repr

/-- Entry of the `roomUsers` roster emitted on login. -/
structure Roster where
  user_id : String
  status : String
  role : Nat
  is_muted : Bool
  deriving DecidableEq, Repr

/-- Payload of a `userStatusChanged` emission.  The handlers disagree on the
payload shape (some send the room under the key `room`, some under
`current_room`, some include `created_at`), so the absent fields are `none`. -/
structure Snapshot where
  user_id : String
  status : String
  role : Option Nat
  is_muted : Option Bool
  room : Option String
  current_room : Option String
  created_at : Option Nat
  deriving DecidableEq, Repr

/-- Where an emission goes: `socket.emit` (self), `io.to(r)` (whole room),
`socket.to(r)` (room minus sender), `socket.broadcast` (everyone else). -/
inductive Target where
  | self : Target
  | roomAll : String → Target
  | roomOthers : String → Target
  | broadcast : Target
  deriving DecidableEq, Repr

/-- The event name and payload of an outbound emission. -/
inductive Payload where
  | errorMessage : String → Payload
  | roomHistory : List (MessageRow × Option UserRow) → Payload
  | joinedRoom : String → String → Nat → Bool → Payload
  | roomMessage : String → String → Payload
  | userStatusChanged : Snapshot → Payload
  | roomUsers : List Roster → Payload
  | userMessageOut : String → String → Nat → Payload
  | userMuted : String → Bool → Payload
  | userKicked : String → Payload
  deriving DecidableEq, Repr

/-- One outbound emission. -/
structure Emission where
  target : Target
  payload : Payload
  deriving DecidableEq, Repr

/-- `prisma.user.findUnique({ where: { user_id } })`. -/
def findUserByUid (s : Store) (uid : String) : Option UserRow :=
  s.users.find? (fun u => u.user_id == uid)

/-- Apply `f` to the row(s) keyed `uid` (the table has a unique index on
`user_id`, so at most one row matches). -/
def dbUpdateUsers (users : List UserRow) (uid : String) (f : UserRow → UserRow) :
    List UserRow :=
  users.map (fun u => if u.user_id == uid then f u else u)

/-- `prisma.user.update({ where: { user_id }, data })`: `none` when no row has
that key (Prisma throws); otherwise the new store and the updated row. -/
def dbUpdateUser (s : Store) (uid : String) (f : UserRow → UserRow) :
    Option (Store × UserRow) :=
  match findUserByUid s uid with
  | none => none
  | some u => some ({ s with users := dbUpdateUsers s.users uid f }, f u)

/-- `prisma.user.upsert`: update the existing row with `upd`, or append the
freshly created row `mk`; returns the new user list and the resulting row. -/
def dbUpsertUser (users : List UserRow) (uid : String) (upd : UserRow → UserRow)
    (mk : UserRow) : List UserRow × UserRow :=
  match users.find? (fun u => u.user_id == uid) with
  | some u => (dbUpdateUsers users uid upd, upd u)
  | none => (users ++ [mk], mk)

/-- The `now_room` sentinel meaning "left / in no room" (the literal used by
the kick and logout handlers). -/
def leftRoom : String := "вышел"

/-- The known-room registration step of `login`
(`if (!this.allRooms.has(roomName)) this.allRooms.add(roomName)`). -/
def ensureRoom (all : List String) (name : String) : List String :=
  if all.contains name then all else all ++ [name]

/-- The transport effect of `login` on `socket.rooms`: leave every room other
than the socket's own id, then join `roomName`. -/
def loginRooms (c : Conn) (roomName : String) : Conn :=
  let kept := c.rooms.filter (fun r => r == c.sid)
  { c with rooms := if kept.contains roomName then kept else kept ++ [roomName] }

/-- The occupancy query of `login`: users recorded in `roomName` whose status
is not `offline`. -/
def occupants (s : Store) (roomName : String) : List UserRow :=
  s.users.filter (fun u => u.now_room == roomName && u.status != "offline")

/-- The role computed by `login`: `2` (moderator) when the room has no
non-offline occupant, else `1` (member). -/
def roleFor (s : Store) (roomName : String) : Nat :=
  if (occupants s roomName).length = 0 then 2 else 1

/-- Ascending sort by `created_at` (the `orderBy: { created_at: 'asc' }` of the
history query). -/
def sortByCreated (l : List MessageRow) : List MessageRow :=
  l.insertionSort (fun a b => a.created_at ≤ b.created_at)

/-- The room-history query of `login`:
`message.findMany({ where: { room }, orderBy: { created_at: 'asc' }, take: 50,
include: { user: true } })`. -/
def roomHistoryQ (s : Store) (roomName : String) : List (MessageRow × Option UserRow) :=
  ((sortByCreated (s.messages.filter (fun m => m.room == roomName))).take 50).map
    (fun m => (m, findUserByUid s m.user_id))

/-- The presence snapshot broadcast by `login` (keys `current_room` and
`created_at` present). -/
def snapLogin (u : UserRow) : Snapshot :=
  ⟨u.user_id, u.status, some u.role, some u.is_muted, none, some u.now_room,
   some u.created_at⟩

/-- The presence snapshot broadcast by `userMessage` and `typing` (room under
the key `room`, no `created_at`). -/
def snapRoomKey (u : UserRow) : Snapshot :=
  ⟨u.user_id, u.status, some u.role, some u.is_muted, some u.now_room, none, none⟩

/-- Combined server-side state threaded through `login`: the store, the
process-wide `allRooms` set, and the connection. -/
structure SState where
  store : Store
  allRooms : List String
  conn : Conn
  deriving DecidableEq, Repr

/-- The `login` handler (`index.ts` lines 65–162).  `now` is the clock value
used for `created_at` when the upsert creates a row.  The handler cannot hit a
throwing store call, so it always runs to the end. -/
def login (st : SState) (userId roomName : String) (now : Nat) :
    SState × List Emission :=
  let conn1 := loginRooms st.conn roomName
  let all1 := ensureRoom st.allRooms roomName
  let role := roleFor st.store roomName
  let up := dbUpsertUser st.store.users userId
    (fun u => { u with status := "online", now_room := roomName, role := role })
    ⟨userId, "online", roomName, role, false, now⟩
  let store1 : Store := { st.store with users := up.1 }
  let user := up.2
  let roomUsersQ := store1.users.filter
    (fun u => u.now_room == roomName && (u.status == "online" || u.status == "typing"))
  (⟨store1, all1, conn1⟩,
   [⟨Target.self, Payload.roomHistory (roomHistoryQ store1 roomName)⟩,
    ⟨Target.self, Payload.joinedRoom roomName
      ("Вы присоединились к комнате " ++ roomName) user.role user.is_muted⟩,
    ⟨Target.roomOthers roomName, Payload.roomMessage roomName
      ("Пользователь " ++ userId ++ " присоединился к комнате")⟩,
    ⟨Target.broadcast, Payload.userStatusChanged (snapLogin user)⟩,
    ⟨Target.self, Payload.roomUsers (roomUsersQ.map
      (fun u => ⟨u.user_id, u.status, u.role, u.is_muted⟩))⟩])

/-- Fold a sequence of `login` events (triples `(userId, roomName, now)`)
handled on one connection. -/
def loginSeq (st : SState) (evs : List (String × String × Nat)) : SState :=
  evs.foldl (fun s e => (login s e.1 e.2.1 e.2.2).1) st

/-- The room the connection currently occupies:
`Array.from(socket.rooms).find(room => room !== socket.id)`. -/
def currentRoom (c : Conn) : Option String :=
  c.rooms.find? (fun r => r != c.sid)

/-- The `userMessage` handler (`index.ts` lines 164–213).  No-op without an
occupied room; a muted sender gets a single error emission; a sender with no
`User` row makes `message.create` throw on the foreign key
(`Message.user_id → User.user_id`), aborting with no effect.  Otherwise the
message is persisted and fanned out, the sender's status is set to `online`,
and the snapshot broadcast is built from `user` — the row as read *before*
that update. -/
def userMessage (s : Store) (c : Conn) (msgText uid : String) (now : Nat) :
    Store × List Emission :=
  match currentRoom c with
  | none => (s, [])
  | some roomName =>
    match findUserByUid s uid with
    | some user =>
      if user.is_muted then
        (s, [⟨Target.self,
              Payload.errorMessage "Вы замьючены и не можете отправлять сообщения"⟩])
      else
        let msg : MessageRow := ⟨s.nextMsgId, uid, roomName, msgText, now⟩
        let s1 : Store := { s with messages := s.messages ++ [msg],
                                   nextMsgId := s.nextMsgId + 1 }
        let users2 := dbUpdateUsers s1.users uid (fun u => { u with status := "online" })
        let s2 : Store := { s1 with users := users2 }
        (s2,
         [⟨Target.roomAll roomName, Payload.userMessageOut msgText uid msg.created_at⟩,
          ⟨Target.broadcast, Payload.userStatusChanged (snapRoomKey user)⟩])
    | none => (s, [])

/-- The authorization failure emission shared by the moderation handlers. -/
def modError : Emission :=
  ⟨Target.self, Payload.errorMessage "У вас нет прав модератора"⟩

/-- The `muteUser` handler (`index.ts` lines 216–251).  Actor without
`role == 2` gets one error emission and nothing changes; with a moderator
actor, `user.update` on a missing target throws, aborting with no effect. -/
def muteUser (s : Store) (targetId moderatorId : String) : Store × List Emission :=
  match findUserByUid s moderatorId with
  | none => (s, [modError])
  | some m =>
    if m.role ≠ 2 then (s, [modError])
    else
      match findUserByUid s targetId with
      | none => (s, [])
      | some _ =>
        let users1 := dbUpdateUsers s.users targetId (fun u => { u with is_muted := true })
        ({ s with users := users1 },
         [⟨Target.roomAll m.now_room, Payload.roomMessage m.now_room
             ("Пользователь " ++ targetId ++ " замьючен")⟩,
          ⟨Target.roomAll m.now_room, Payload.userMuted targetId true⟩])

/-- The `unmuteUser` handler (`index.ts` lines 253–288), the mirror image of
`muteUser`. -/
def unmuteUser (s : Store) (targetId moderatorId : String) : Store × List Emission :=
  match findUserByUid s moderatorId with
  | none => (s, [modError])
  | some m =>
    if m.role ≠ 2 then (s, [modError])
    else
      match findUserByUid s targetId with
      | none => (s, [])
      | some _ =>
        let users1 := dbUpdateUsers s.users targetId (fun u => { u with is_muted := false })
        ({ s with users := users1 },
         [⟨Target.roomAll m.now_room, Payload.roomMessage m.now_room
             ("Пользователь " ++ targetId ++ " размьючен")⟩,
          ⟨Target.roomAll m.now_room, Payload.userMuted targetId false⟩])

/-- The `kickUser` handler (`index.ts` lines 290–343).  After authorization it
looks the target up explicitly and silently no-ops when absent; otherwise the
target row gets `status = "offline"`, `now_room = leftRoom`, the moderator's
room gets a notice and a `userKicked` event, and the broadcast snapshot is
built from the target's pre-read row with the two literals spliced in. -/
def kickUser (s : Store) (targetId moderatorId : String) : Store × List Emission :=
  match findUserByUid s moderatorId with
  | none => (s, [modError])
  | some m =>
    if m.role ≠ 2 then (s, [modError])
    else
      match findUserByUid s targetId with
      | none => (s, [])
      | some t =>
        let users1 := dbUpdateUsers s.users targetId
          (fun u => { u with status := "offline", now_room := leftRoom })
        ({ s with users := users1 },
         [⟨Target.roomAll m.now_room, Payload.roomMessage m.now_room
             ("Пользователь " ++ targetId ++ " был исключен из комнаты")⟩,
          ⟨Target.roomAll m.now_room, Payload.userKicked targetId⟩,
          ⟨Target.broadcast, Payload.userStatusChanged
             ⟨t.user_id, "offline", some t.role, some t.is_muted, none,
              some leftRoom, none⟩⟩])

/-- The typing-timer map: participant id → delay of the armed timer in
milliseconds (a JS `Map`, keyed by participant id alone). -/
abbrev TimerMap : Type := List (String × Nat)

/-- The `typing` handler (`index.ts` lines 345–394).  Any pending timer for
`uid` is cancelled first; `isTyping` picks the new status and, when true, arms
a fresh 2000 ms timer (before the store update, so the timer survives even if
the update throws on a missing row).  The broadcast uses the row returned by
the update. -/
def typing (s : Store) (timers : TimerMap) (uid : String) (isTyping : Bool) :
    Store × TimerMap × List Emission :=
  let timers1 : TimerMap := timers.filter (fun p => p.1 != uid)
  let newStatus := if isTyping then "typing" else "online"
  let timers2 : TimerMap := if isTyping then timers1 ++ [(uid, 2000)] else timers1
  match dbUpdateUser s uid (fun u => { u with status := newStatus }) with
  | none => (s, timers2, [])
  | some (s1, u1) =>
    (s1, timers2, [⟨Target.broadcast, Payload.userStatusChanged (snapRoomKey u1)⟩])

/-- The firing of a typing-expiry timer (the `setTimeout` callback at
`index.ts` lines 358–373): set the participant back to `online`, broadcast the
updated row, then delete the timer entry (the delete is last, so an update
throw leaves the entry behind). -/
def typingTimerFire (s : Store) (timers : TimerMap) (uid : String) :
    Store × TimerMap × List Emission :=
  match dbUpdateUser s uid (fun u => { u with status := "online" }) with
  | none => (s, timers, [])
  | some (s1, u1) =>
    (s1, timers.filter (fun p => p.1 != uid),
     [⟨Target.broadcast, Payload.userStatusChanged (snapRoomKey u1)⟩])

/-- Modelled from the spec (for comparison with `roomHistoryQ` only): "up to
the 50 most recent Messages for `roomName` ordered oldest-first, joined with
sender identity" — the 50 largest `created_at` values, then presented in
ascending order. -/
def specRecentHistory (s : Store) (roomName : String) :
    List (MessageRow × Option UserRow) :=
  ((((s.messages.filter (fun m => m.room == roomName)).insertionSort
      (fun a b => b.created_at ≤ a.created_at)).take 50).reverse).map
    (fun m => (m, findUserByUid s m.user_id))

/-! ### Helper lemmas -/

theorem find?_dbUpdateUsers (users : List UserRow) (uid : String) (f : UserRow → UserRow)
    (hf : ∀ u, (f u).user_id = u.user_id) :
    (dbUpdateUsers users uid f).find? (fun u => u.user_id == uid) =
      (users.find? (fun u => u.user_id == uid)).map f := by
  induction users with
  | nil => rfl
  | cons a l ih =>
    by_cases ha : a.user_id = uid
    · simp [dbUpdateUsers, ha, hf a]
    · simpa [dbUpdateUsers, ha] using ih

theorem find?_dbUpsertUser (users : List UserRow) (uid : String)
    (upd : UserRow → UserRow) (mk : UserRow)
    (hupd : ∀ u, (upd u).user_id = u.user_id) (hmk : mk.user_id = uid) :
    (dbUpsertUser users uid upd mk).1.find? (fun u => u.user_id == uid) =
      some (dbUpsertUser users uid upd mk).2 := by
  unfold dbUpsertUser
  cases h : users.find? (fun u => u.user_id == uid) with
  | none =>
    simp only []
    rw [List.find?_append, h]
    simp [hmk]
  | some u =>
    simp only []
    rw [find?_dbUpdateUsers users uid upd hupd, h]
    rfl

theorem loginRooms_nonself (c : Conn) (roomName : String) :
    (((loginRooms c roomName).rooms.filter
        (fun r => r != (loginRooms c roomName).sid)).length ≤ 1) := by
  have hkept : (c.rooms.filter (fun r => r == c.sid)).filter (fun r => r != c.sid) = [] := by
    rw [List.filter_eq_nil_iff]
    intro a ha
    have := List.of_mem_filter ha
    simp_all
  show ((if (c.rooms.filter (fun r => r == c.sid)).contains roomName
          then c.rooms.filter (fun r => r == c.sid)
          else c.rooms.filter (fun r => r == c.sid) ++ [roomName]).filter
        (fun r => r != c.sid)).length ≤ 1
  by_cases h : (c.rooms.filter (fun r => r == c.sid)).contains roomName
  · rw [if_pos h, hkept]
    simp
  · rw [if_neg h, List.filter_append, hkept, List.nil_append]
    cases hb : (roomName != c.sid) <;> simp [List.filter, hb]

theorem loginSeq_pres (evs : List (String × String × Nat)) :
    ∀ st : SState, ((st.conn.rooms.filter (fun r => r != st.conn.sid)).length ≤ 1) →
      (((loginSeq st evs).conn.rooms.filter
          (fun r => r != (loginSeq st evs).conn.sid)).length ≤ 1) := by
  induction evs with
  | nil => exact fun _ h => h
  | cons e rest ih =>
    intro st _
    show (((loginSeq (login st e.1 e.2.1 e.2.2).1 rest).conn.rooms.filter
        (fun r => r != (loginSeq (login st e.1 e.2.1 e.2.2).1 rest).conn.sid)).length ≤ 1)
    exact ih _ (loginRooms_nonself st.conn e.2.1)

theorem loginSeq_sid (evs : List (String × String × Nat)) :
    ∀ st : SState, (loginSeq st evs).conn.sid = st.conn.sid := by
  induction evs with
  | nil => exact fun _ => rfl
  | cons e rest ih => exact fun st => ih (login st e.1 e.2.1 e.2.2).1

/-- **C7.** After any sequence of `login` events handled on one connection
(starting from a fresh connection whose transport membership is its own id),
the connection's room membership contains at most one room other than the
connection's own private self-id channel: each login leaves every non-self
room before joining the new one. -/
theorem single_room_invariant (sid : String) (store : Store) (all : List String)
    (evs : List (String × String × Nat)) :
    (((loginSeq ⟨store, all, ⟨sid, [sid]⟩⟩ evs).conn.rooms.filter
        (fun r => r != sid)).length ≤ 1) := by
  have h := loginSeq_pres evs ⟨store, all, ⟨sid, [sid]⟩⟩ (by simp)
  rwa [loginSeq_sid evs ⟨store, all, ⟨sid, [sid]⟩⟩] at h

/-- **C9.** `ensureRoom` (the known-room registration step of `login`) is
idempotent: registering `N` twice equals registering it once, the result's
members are exactly those of `S` plus `N`, and the registration does not
affect transport room membership (`login`'s connection outcome is
`loginRooms` of the previous connection state, independent of `allRooms`). -/
theorem ensureRoom_registration (S : List String) (N : String) :
    ensureRoom (ensureRoom S N) N = ensureRoom S N
    ∧ (∀ x, x ∈ ensureRoom S N ↔ x ∈ S ∨ x = N)
    ∧ (∀ (st : SState) (u r : String) (now : Nat),
        (login st u r now).1.conn = loginRooms st.conn r) := by
  refine ⟨?_, ?_, fun _ _ _ _ => rfl⟩
  · unfold ensureRoom
    by_cases h : S.contains N
    · rw [if_pos h, if_pos h]
    · rw [if_neg h]
      have : (S ++ [N]).contains N := by simp
      simp [this]
  · intro x
    unfold ensureRoom
    by_cases h : S.contains N
    · have hN : N ∈ S := by simpa using h
      rw [if_pos h]
      exact ⟨Or.inl, fun hx => hx.elim id (fun he => he ▸ hN)⟩
    · rw [if_neg h]
      simp

/-- **C1.** On every `login` for participant `u` into room `r`, the upserted
`User` row gets role `2` (moderator) exactly when the store held zero
non-offline occupants of `r` at query time, and role `1` (member) otherwise;
the role is overwritten by this rule regardless of the previous row. -/
theorem login_role_assignment (st : SState) (u r : String) (now : Nat) :
    (findUserByUid (login st u r now).1.store u).map (fun x => x.role) =
      some (if (occupants st.store r).length = 0 then 2 else 1) := by
  have h := find?_dbUpsertUser st.store.users u
    (fun x => { x with status := "online", now_room := r, role := roleFor st.store r })
    ⟨u, "online", r, roleFor st.store r, false, now⟩ (fun _ => rfl) rfl
  show ((dbUpsertUser st.store.users u
      (fun x => { x with status := "online", now_room := r, role := roleFor st.store r })
      ⟨u, "online", r, roleFor st.store r, false, now⟩).1.find?
        (fun x => x.user_id == u)).map (fun x => x.role) = _
  rw [h]
  unfold dbUpsertUser roleFor
  cases st.store.users.find? (fun x => x.user_id == u) <;> simp

/-- **C10.** When the `login` participant already has a `User` row, the update
branch of the upsert rewrites only `status`, `now_room` and `role`; in
particular `is_muted` and `created_at` are carried over unchanged, so a muted
participant stays muted across re-login. -/
theorem login_update_frame (st : SState) (u r : String) (now : Nat) (old : UserRow)
    (h : findUserByUid st.store u = some old) :
    findUserByUid (login st u r now).1.store u =
      some { old with status := "online", now_room := r, role := roleFor st.store r }
    ∧ (findUserByUid (login st u r now).1.store u).map (fun x => x.is_muted) =
        some old.is_muted
    ∧ (findUserByUid (login st u r now).1.store u).map (fun x => x.created_at) =
        some old.created_at := by
  have hfind := find?_dbUpsertUser st.store.users u
    (fun x => { x with status := "online", now_room := r, role := roleFor st.store r })
    ⟨u, "online", r, roleFor st.store r, false, now⟩ (fun _ => rfl) rfl
  have hmain : findUserByUid (login st u r now).1.store u =
      some { old with status := "online", now_room := r, role := roleFor st.store r } := by
    show ((dbUpsertUser st.store.users u
        (fun x => { x with status := "online", now_room := r, role := roleFor st.store r })
        ⟨u, "online", r, roleFor st.store r, false, now⟩).1.find?
          (fun x => x.user_id == u)) = _
    rw [hfind]
    unfold dbUpsertUser
    rw [show st.store.users.find? (fun x => x.user_id == u) = some old from h]
  exact ⟨hmain, by simp [hmain], by simp [hmain]⟩

/-- Concrete store for the `login_update_frame` witness: one muted, offline
user. -/
def frameStore : Store := ⟨[⟨"alice", "offline", "вышел", 1, true, 7⟩], [], 0⟩

/-- Concrete server state for the `login_update_frame` witness. -/
def frameState : SState := ⟨frameStore, ["Technology"], ⟨"s1", ["s1"]⟩⟩

/-- Witness for `login_update_frame` at a concrete muted user. -/
theorem login_update_frame_witness :
    findUserByUid frameState.store "alice" = some ⟨"alice", "offline", "вышел", 1, true, 7⟩
    ∧ (findUserByUid (login frameState "alice" "Cars" 9).1.store "alice" =
        some ⟨"alice", "online", "Cars", 2, true, 7⟩
      ∧ (findUserByUid (login frameState "alice" "Cars" 9).1.store "alice").map
          (fun x => x.is_muted) = some true
      ∧ (findUserByUid (login frameState "alice" "Cars" 9).1.store "alice").map
          (fun x => x.created_at) = some 7) :=
  ⟨rfl, login_update_frame frameState "alice" "Cars" 9
    ⟨"alice", "offline", "вышел", 1, true, 7⟩ rfl⟩

/-- **C2.** A `userMessage` from a muted participant whose connection occupies
a room persists nothing, changes no stored row, and produces exactly one
`errorMessage` emission to the sender's own connection — no room-wide
emission. -/
theorem mute_enforcement (s : Store) (c : Conn) (msgText uid : String) (now : Nat)
    (rm : String) (hr : currentRoom c = some rm) (u : UserRow)
    (hf : findUserByUid s uid = some u) (hm : u.is_muted = true) :
    userMessage s c msgText uid now =
      (s, [⟨Target.self,
            Payload.errorMessage "Вы замьючены и не можете отправлять сообщения"⟩]) := by
  simp [userMessage, hr, hf, hm]

/-- Concrete store for the `mute_enforcement` witness: one muted user in
room `Cars`. -/
def mutedStore : Store := ⟨[⟨"bob", "online", "Cars", 1, true, 3⟩], [], 0⟩

/-- Concrete connection for the `mute_enforcement` witness. -/
def mutedConn : Conn := ⟨"s2", ["s2", "Cars"]⟩

/-- Witness for `mute_enforcement` at a concrete muted sender. -/
theorem mute_enforcement_witness :
    currentRoom mutedConn = some "Cars"
    ∧ findUserByUid mutedStore "bob" = some ⟨"bob", "online", "Cars", 1, true, 3⟩
    ∧ userMessage mutedStore mutedConn "привет" "bob" 4 =
        (mutedStore, [⟨Target.self,
          Payload.errorMessage "Вы замьючены и не можете отправлять сообщения"⟩]) :=
  ⟨rfl, rfl, mute_enforcement mutedStore mutedConn "привет" "bob" 4 "Cars" rfl
    ⟨"bob", "online", "Cars", 1, true, 3⟩ rfl rfl⟩

/-- **C3.** When the acting participant of `muteUser`, `unmuteUser` or
`kickUser` does not resolve to a `User` row with role `2`, the store is left
untouched and the only emission is a single `errorMessage` to the actor's
connection. -/
theorem moderation_requires_moderator (s : Store) (t m : String)
    (h : (findUserByUid s m).map (fun x => x.role) ≠ some 2) :
    muteUser s t m = (s, [modError])
    ∧ unmuteUser s t m = (s, [modError])
    ∧ kickUser s t m = (s, [modError]) := by
  cases hm : findUserByUid s m with
  | none => refine ⟨?_, ?_, ?_⟩ <;> simp [muteUser, unmuteUser, kickUser, hm]
  | some u =>
    have hu : u.role ≠ 2 := by
      intro he
      exact h (by rw [hm]; simp [he])
    refine ⟨?_, ?_, ?_⟩ <;> simp [muteUser, unmuteUser, kickUser, hm, hu]

/-- Concrete store for the `moderation_requires_moderator` witness: the actor
is a plain member. -/
def memberStore : Store :=
  ⟨[⟨"carol", "online", "Games", 1, false, 1⟩, ⟨"dave", "online", "Games", 1, false, 2⟩],
   [], 0⟩

/-- Witness for `moderation_requires_moderator` with a member actor. -/
theorem moderation_requires_moderator_witness :
    (findUserByUid memberStore "carol").map (fun x => x.role) ≠ some 2
    ∧ (muteUser memberStore "dave" "carol" = (memberStore, [modError])
      ∧ unmuteUser memberStore "dave" "carol" = (memberStore, [modError])
      ∧ kickUser memberStore "dave" "carol" = (memberStore, [modError])) :=
  ⟨by decide, moderation_requires_moderator memberStore "dave" "carol" (by decide)⟩

/-- **C4.** A `kickUser` by a moderator: when the target row exists it is
rewritten to `status = "offline"`, `now_room = leftRoom`, the moderator's
current room gets the notice and the `userKicked` event, and the broadcast
snapshot carries the offline status and the sentinel room; when the target has
no row the handler performs no mutation and no emission. -/
theorem kick_effect (s : Store) (t m : String) (mrow : UserRow)
    (hm : findUserByUid s m = some mrow) (hrole : mrow.role = 2) :
    (∀ trow, findUserByUid s t = some trow →
      findUserByUid (kickUser s t m).1 t =
        some { trow with status := "offline", now_room := leftRoom }
      ∧ (kickUser s t m).2 =
        [⟨Target.roomAll mrow.now_room, Payload.roomMessage mrow.now_room
            ("Пользователь " ++ t ++ " был исключен из комнаты")⟩,
         ⟨Target.roomAll mrow.now_room, Payload.userKicked t⟩,
         ⟨Target.broadcast, Payload.userStatusChanged
            ⟨trow.user_id, "offline", some trow.role, some trow.is_muted, none,
             some leftRoom, none⟩⟩])
    ∧ (findUserByUid s t = none → kickUser s t m = (s, [])) := by
  constructor
  · intro trow ht
    have heq : kickUser s t m =
        ({ s with users := dbUpdateUsers s.users t (fun x => { x with status := "offline", now_room := leftRoom }) },
         [⟨Target.roomAll mrow.now_room, Payload.roomMessage mrow.now_room
             ("Пользователь " ++ t ++ " был исключен из комнаты")⟩,
          ⟨Target.roomAll mrow.now_room, Payload.userKicked t⟩,
          ⟨Target.broadcast, Payload.userStatusChanged
             ⟨trow.user_id, "offline", some trow.role, some trow.is_muted, none,
              some leftRoom, none⟩⟩]) := by
      simp [kickUser, hm, ht, hrole]
    refine ⟨?_, by rw [heq]⟩
    rw [heq]
    show (dbUpdateUsers s.users t
        (fun x => { x with status := "offline", now_room := leftRoom })).find?
          (fun x => x.user_id == t) = _
    rw [find?_dbUpdateUsers s.users t
      (fun x => { x with status := "offline", now_room := leftRoom }) (fun _ => rfl)]
    rw [show s.users.find? (fun x => x.user_id == t) = some trow from ht]
    rfl
  · intro ht
    simp [kickUser, hm, ht, hrole]

/-- Concrete store for the `kick_effect` witness: a moderator and a kickable
member in room `Games`. -/
def kickStore : Store :=
  ⟨[⟨"mod", "online", "Games", 2, false, 1⟩, ⟨"eve", "typing", "Games", 1, false, 2⟩],
   [], 0⟩

/-- Witness for `kick_effect` at a concrete moderator and target. -/
theorem kick_effect_witness :
    findUserByUid kickStore "mod" = some ⟨"mod", "online", "Games", 2, false, 1⟩
    ∧ findUserByUid kickStore "eve" = some ⟨"eve", "typing", "Games", 1, false, 2⟩
    ∧ (findUserByUid (kickUser kickStore "eve" "mod").1 "eve" =
        some ⟨"eve", "offline", leftRoom, 1, false, 2⟩
      ∧ (kickUser kickStore "eve" "mod").2 =
        [⟨Target.roomAll "Games", Payload.roomMessage "Games"
            ("Пользователь " ++ "eve" ++ " был исключен из комнаты")⟩,
         ⟨Target.roomAll "Games", Payload.userKicked "eve"⟩,
         ⟨Target.broadcast, Payload.userStatusChanged
            ⟨"eve", "offline", some 1, some false, none, some leftRoom, none⟩⟩]) :=
  ⟨rfl, rfl,
   (kick_effect kickStore "eve" "mod" ⟨"mod", "online", "Games", 2, false, 1⟩ rfl rfl).1
     ⟨"eve", "typing", "Games", 1, false, 2⟩ rfl⟩

/-- Concrete store for the stale-broadcast defect: the sender is unmuted and
currently `typing`. -/
def staleStore : Store := ⟨[⟨"alice", "typing", "Cars", 2, false, 0⟩], [], 0⟩

/-- Concrete connection for the stale-broadcast defect. -/
def staleConn : Conn := ⟨"s1", ["s1", "Cars"]⟩

/-- **C6 (defect).** After a successful `userMessage`, the stored status of
the sender is `"online"`, but the `userStatusChanged` broadcast is built from
the row read *before* the update, so it still carries the stale `"typing"`
status instead of the updated one. -/
theorem userMessage_broadcast_stale :
    (findUserByUid (userMessage staleStore staleConn "hi" "alice" 5).1 "alice").map
        (fun x => x.status) = some "online"
    ∧ (userMessage staleStore staleConn "hi" "alice" 5).2 =
        [⟨Target.roomAll "Cars", Payload.userMessageOut "hi" "alice" 5⟩,
         ⟨Target.broadcast, Payload.userStatusChanged
            ⟨"alice", "typing", some 2, some false, some "Cars", none, none⟩⟩] := by
  exact ⟨rfl, rfl⟩

/-- **C8.** The `typing` handler cancels any pending timer for the
participant first; with `isTyping = true` it persists status `"typing"` and
arms a fresh 2000 ms timer, with `isTyping = false` it persists `"online"` and
arms nothing; in both cases the updated row is broadcast immediately.  Firing
the armed timer afterwards persists `"online"`, removes the timer entry, and
broadcasts the updated row. -/
theorem typing_debounce (s : Store) (timers : TimerMap) (uid : String) (b : Bool)
    (u : UserRow) (h : findUserByUid s uid = some u) :
    (typing s timers uid b).2.1 =
      timers.filter (fun p => p.1 != uid) ++ (if b then [(uid, 2000)] else [])
    ∧ findUserByUid (typing s timers uid b).1 uid =
        some { u with status := if b then "typing" else "online" }
    ∧ (typing s timers uid b).2.2 =
        [⟨Target.broadcast, Payload.userStatusChanged
            (snapRoomKey { u with status := if b then "typing" else "online" })⟩]
    ∧ findUserByUid
        (typingTimerFire (typing s timers uid b).1 (typing s timers uid b).2.1 uid).1
          uid = some { u with status := "online" }
    ∧ (typingTimerFire (typing s timers uid b).1 (typing s timers uid b).2.1 uid).2.1 =
        timers.filter (fun p => p.1 != uid)
    ∧ (typingTimerFire (typing s timers uid b).1 (typing s timers uid b).2.1 uid).2.2 =
        [⟨Target.broadcast,
          Payload.userStatusChanged (snapRoomKey { u with status := "online" })⟩] := by
  have heq : typing s timers uid b =
      ({ s with users := dbUpdateUsers s.users uid (fun x => { x with status := if b then "typing" else "online" }) },
       timers.filter (fun p => p.1 != uid) ++ (if b then [(uid, 2000)] else []),
       [⟨Target.broadcast, Payload.userStatusChanged
           (snapRoomKey { u with status := if b then "typing" else "online" })⟩]) := by
    cases b <;> simp [typing, dbUpdateUser, h]
  have h1 : findUserByUid (typing s timers uid b).1 uid =
      some { u with status := if b then "typing" else "online" } := by
    rw [heq]
    show (dbUpdateUsers s.users uid
        (fun x => { x with status := if b then "typing" else "online" })).find?
          (fun x => x.user_id == uid) = _
    rw [find?_dbUpdateUsers s.users uid
      (fun x => { x with status := if b then "typing" else "online" }) (fun _ => rfl)]
    rw [show s.users.find? (fun x => x.user_id == uid) = some u from h]
    rfl
  have heqF : typingTimerFire (typing s timers uid b).1 (typing s timers uid b).2.1 uid =
      ({ (typing s timers uid b).1 with users := dbUpdateUsers (typing s timers uid b).1.users uid (fun x => { x with status := "online" }) },
       (typing s timers uid b).2.1.filter (fun p => p.1 != uid),
       [⟨Target.broadcast,
         Payload.userStatusChanged (snapRoomKey { u with status := "online" })⟩]) := by
    simp [typingTimerFire, dbUpdateUser, h1]
  have h4 : findUserByUid
      (typingTimerFire (typing s timers uid b).1 (typing s timers uid b).2.1 uid).1
        uid = some { u with status := "online" } := by
    rw [heqF]
    show (dbUpdateUsers (typing s timers uid b).1.users uid
        (fun x => { x with status := "online" })).find? (fun x => x.user_id == uid) = _
    rw [find?_dbUpdateUsers ((typing s timers uid b).1.users) uid
      (fun x => { x with status := "online" }) (fun _ => rfl)]
    rw [show (typing s timers uid b).1.users.find? (fun x => x.user_id == uid) =
      some { u with status := if b then "typing" else "online" } from h1]
    rfl
  have h5 : (typingTimerFire (typing s timers uid b).1
      (typing s timers uid b).2.1 uid).2.1 = timers.filter (fun p => p.1 != uid) := by
    rw [heqF]
    show ((typing s timers uid b).2.1.filter (fun p => p.1 != uid)) = _
    rw [show (typing s timers uid b).2.1 =
      timers.filter (fun p => p.1 != uid) ++ (if b then [(uid, 2000)] else [])
      from by rw [heq]]
    rw [List.filter_append]
    have h2 : (timers.filter (fun p => p.1 != uid)).filter (fun p => p.1 != uid) =
        timers.filter (fun p => p.1 != uid) := by
      simp [List.filter_filter]
    have h3 : ((if b then [(uid, 2000)] else []) : TimerMap).filter
        (fun p => p.1 != uid) = [] := by
      cases b <;> simp
    rw [h2, h3, List.append_nil]
  exact ⟨by rw [heq], h1, by rw [heq], h4, h5, by rw [heqF]⟩

/-- Concrete store for the `typing_debounce` witness. -/
def typingStore : Store := ⟨[⟨"alice", "online", "Cars", 2, false, 0⟩], [], 0⟩

/-- Concrete timer map for the `typing_debounce` witness: a pending timer for
the participant herself and one for someone else. -/
def typingTimers : TimerMap := [("alice", 2000), ("bob", 2000)]

/-- Witness for `typing_debounce` at a concrete typing participant. -/
theorem typing_debounce_witness :
    findUserByUid typingStore "alice" = some ⟨"alice", "online", "Cars", 2, false, 0⟩
    ∧ ((typing typingStore typingTimers "alice" true).2.1 =
        [("bob", 2000), ("alice", 2000)]
      ∧ findUserByUid (typing typingStore typingTimers "alice" true).1 "alice" =
          some ⟨"alice", "typing", "Cars", 2, false, 0⟩
      ∧ (typing typingStore typingTimers "alice" true).2.2 =
          [⟨Target.broadcast, Payload.userStatusChanged
              ⟨"alice", "typing", some 2, some false, some "Cars", none, none⟩⟩]
      ∧ findUserByUid
          (typingTimerFire (typing typingStore typingTimers "alice" true).1
            (typing typingStore typingTimers "alice" true).2.1 "alice").1 "alice" =
          some ⟨"alice", "online", "Cars", 2, false, 0⟩
      ∧ (typingTimerFire (typing typingStore typingTimers "alice" true).1
          (typing typingStore typingTimers "alice" true).2.1 "alice").2.1 =
          [("bob", 2000)]
      ∧ (typingTimerFire (typing typingStore typingTimers "alice" true).1
          (typing typingStore typingTimers "alice" true).2.1 "alice").2.2 =
          [⟨Target.broadcast, Payload.userStatusChanged
              ⟨"alice", "online", some 2, some false, some "Cars", none, none⟩⟩]) :=
  ⟨rfl, typing_debounce typingStore typingTimers "alice" true
    ⟨"alice", "online", "Cars", 2, false, 0⟩ rfl⟩

instance : IsTotal MessageRow (fun a b => a.created_at ≤ b.created_at) :=
  ⟨fun a b => Nat.le_total a.created_at b.created_at⟩

instance : IsTrans MessageRow (fun a b => a.created_at ≤ b.created_at) :=
  ⟨fun _ _ _ => Nat.le_trans⟩

/-- A store holding 51 messages in room `R` with distinct ascending
timestamps — one more than the history window. -/
def histStore : Store :=
  ⟨[⟨"alice", "online", "R", 2, false, 0⟩],
   (List.range 51).map (fun i => ⟨i, "alice", "R", "t", i⟩), 51⟩

/-- **C5 counterexample.** With 51 messages in the room, the history the
`login` handler computes (`orderBy created_at asc, take 50`) is not the 50
most recent messages in ascending order: the oldest 50 are returned and the
newest message is dropped. -/
theorem roomHistory_not_most_recent :
    roomHistoryQ histStore "R" ≠ specRecentHistory histStore "R" := by
  decide

/-- **C5 amended.** The room history `login` emits to the connection alone is
the up-to-50 *oldest* messages of the room in ascending `created_at` order,
each joined with its sender's row: it is sorted ascending, holds at most 50
messages of that room, every returned message is no newer than any message the
window dropped, and every message of the room is either returned or dropped. -/
theorem room_history_oldest_fifty (st : SState) (uL rL : String) (nowL : Nat)
    (s : Store) (r : String) (p : MessageRow × Option UserRow)
    (dropped mAll : MessageRow)
    (hp : p ∈ roomHistoryQ s r)
    (hd : dropped ∈ (sortByCreated (s.messages.filter (fun x => x.room == r))).drop 50)
    (hm : mAll ∈ s.messages) (hmr : mAll.room = r) :
    (login st uL rL nowL).2.head? =
      some ⟨Target.self, Payload.roomHistory (roomHistoryQ (login st uL rL nowL).1.store rL)⟩
    ∧ List.Pairwise (fun a b => a.1.created_at ≤ b.1.created_at) (roomHistoryQ s r)
    ∧ (roomHistoryQ s r).length ≤ 50
    ∧ p.1.room = r
    ∧ p.2 = findUserByUid s p.1.user_id
    ∧ p.1.created_at ≤ dropped.created_at
    ∧ (mAll ∈ (roomHistoryQ s r).map (fun q => q.1)
        ∨ mAll ∈ (sortByCreated (s.messages.filter (fun x => x.room == r))).drop 50) := by
  have hsorted : List.Pairwise (fun a b : MessageRow => a.created_at ≤ b.created_at)
      (sortByCreated (s.messages.filter (fun x => x.room == r))) :=
    List.sorted_insertionSort (fun a b : MessageRow => a.created_at ≤ b.created_at)
      (s.messages.filter (fun x => x.room == r))
  have hperm : List.Perm (sortByCreated (s.messages.filter (fun x => x.room == r)))
      (s.messages.filter (fun x => x.room == r)) :=
    List.perm_insertionSort (fun a b : MessageRow => a.created_at ≤ b.created_at)
      (s.messages.filter (fun x => x.room == r))
  obtain ⟨q, hq, hpq⟩ := List.mem_map.mp hp
  have hqsorted : q ∈ sortByCreated (s.messages.filter (fun x => x.room == r)) :=
    (List.take_sublist 50 _).subset hq
  have hqfilter : q ∈ s.messages.filter (fun x => x.room == r) := hperm.mem_iff.mp hqsorted
  have hsplit := List.take_append_drop 50
    (sortByCreated (s.messages.filter (fun x => x.room == r)))
  have hdom : ∀ a ∈ (sortByCreated (s.messages.filter (fun x => x.room == r))).take 50,
      ∀ b ∈ (sortByCreated (s.messages.filter (fun x => x.room == r))).drop 50,
      a.created_at ≤ b.created_at := by
    have := hsorted
    rw [← hsplit, List.pairwise_append] at this
    exact this.2.2
  refine ⟨rfl, ?_, ?_, ?_, ?_, ?_, ?_⟩
  · rw [roomHistoryQ, List.pairwise_map]
    exact (hsorted.sublist (List.take_sublist 50 _))
  · simp [roomHistoryQ]
  · rw [← hpq]
    simpa using (List.mem_filter.mp hqfilter).2
  · rw [← hpq]
  · rw [← hpq]
    exact hdom q hq dropped hd
  · have hmfilter : mAll ∈ s.messages.filter (fun x => x.room == r) :=
      List.mem_filter.mpr ⟨hm, by simp [hmr]⟩
    have hmsorted : mAll ∈ sortByCreated (s.messages.filter (fun x => x.room == r)) :=
      hperm.mem_iff.mpr hmfilter
    have hmapfst : (roomHistoryQ s r).map (fun q => q.1) =
        (sortByCreated (s.messages.filter (fun x => x.room == r))).take 50 := by
      rw [roomHistoryQ, List.map_map]
      rw [show ((fun (q : MessageRow × Option UserRow) => q.1) ∘
          fun m => (m, findUserByUid s m.user_id)) = id from rfl]
      exact List.map_id _
    rw [hmapfst]
    rw [← hsplit] at hmsorted
    exact List.mem_append.mp hmsorted

/-- Witness for `room_history_oldest_fifty`: the 51-message store; the oldest
message is kept, the newest is dropped. -/
theorem room_history_oldest_fifty_witness :
    ((⟨0, "alice", "R", "t", 0⟩, some ⟨"alice", "online", "R", 2, false, 0⟩) ∈
        roomHistoryQ histStore "R"
      ∧ (⟨50, "alice", "R", "t", 50⟩ : MessageRow) ∈
        (sortByCreated (histStore.messages.filter (fun x => x.room == "R"))).drop 50
      ∧ (⟨50, "alice", "R", "t", 50⟩ : MessageRow) ∈ histStore.messages)
    ∧ ((login ⟨histStore, [], ⟨"s1", ["s1"]⟩⟩ "alice" "R" 60).2.head? =
        some ⟨Target.self, Payload.roomHistory
          (roomHistoryQ (login ⟨histStore, [], ⟨"s1", ["s1"]⟩⟩ "alice" "R" 60).1.store "R")⟩
      ∧ List.Pairwise (fun a b => a.1.created_at ≤ b.1.created_at)
          (roomHistoryQ histStore "R")
      ∧ (roomHistoryQ histStore "R").length ≤ 50
      ∧ (⟨0, "alice", "R", "t", 0⟩ : MessageRow).room = "R"
      ∧ (some ⟨"alice", "online", "R", 2, false, 0⟩ : Option UserRow) =
          findUserByUid histStore "alice"
      ∧ (0 : Nat) ≤ (50 : Nat)
      ∧ ((⟨50, "alice", "R", "t", 50⟩ : MessageRow) ∈
            (roomHistoryQ histStore "R").map (fun q => q.1)
          ∨ (⟨50, "alice", "R", "t", 50⟩ : MessageRow) ∈
            (sortByCreated (histStore.messages.filter (fun x => x.room == "R"))).drop 50)) :=
  ⟨⟨by decide, by decide, by decide⟩,
   room_history_oldest_fifty ⟨histStore, [], ⟨"s1", ["s1"]⟩⟩ "alice" "R" 60 histStore "R"
     (⟨0, "alice", "R", "t", 0⟩, some ⟨"alice", "online", "R", 2, false, 0⟩)
     ⟨50, "alice", "R", "t", 50⟩ ⟨50, "alice", "R", "t", 50⟩
     (by decide) (by decide) (by decide) rfl⟩

end Chat
